import Mathlib

/-! RHI: buffer residency and the persistent-mapped ring allocator

A shallow embedding of `src/Private/Vulkan/BufferVk.cpp`.

* `size_t` values are natural numbers below `2 ^ 64`; every `+`, `-` and `*`
  of the source is taken modulo `2 ^ 64` (`addSz`, `subSz`, `mulSz`).
* Pointers are natural numbers, `nullptr` is `0`.
* `std::queue<Block>` is a list whose head is `front()`; `push` appends.
* Calls into VMA / Vulkan / the device are recorded as a trace of `Call`s.
-/

namespace RHI

/-! ## `size_t` arithmetic -/

/-- Number of values of a 64-bit `size_t`. -/
def SIZE_T_MOD : Nat := 2 ^ 64

/-- Unsigned `a + b` on `size_t`. -/
def addSz (a b : Nat) : Nat := (a + b) % SIZE_T_MOD

/-- Unsigned `a - b` on `size_t` (wraps below zero). -/
def subSz (a b : Nat) : Nat := (a % SIZE_T_MOD + SIZE_T_MOD - b % SIZE_T_MOD) % SIZE_T_MOD

/-- Unsigned `a * b` on `size_t`. -/
def mulSz (a b : Nat) : Nat := (a * b) % SIZE_T_MOD

/-- The null pointer. -/
def nullptr : Nat := 0

/-! ## Ring allocator: data -/

/-- Modelled from the spec: the block type of `CurrBlock` and `AllocatedBlocks` is declared in
`BufferVk.h`, which is absent; it is the byte range `[Begin, End)` with the two `size_t` fields
that `BufferVk.cpp` reads and writes. -/
structure CBlock where
  Begin : Nat
  End : Nat
deriving DecidableEq, Repr

/-- Modelled from the spec: the in-class initialiser of `CurrBlock` is in the absent header; a
fresh allocator has the empty current block `[0, 0)`. -/
def CBlock.initial : CBlock := { Begin := 0, End := 0 }

/-- Fields of `CPersistentMappedRingBuffer` that `BufferVk.cpp` touches. `Handle`, `Allocation`
and `Parent` are opaque handles used only by the constructor and destructor. -/
structure CPersistentMappedRingBuffer where
  TotalSize : Nat
  MappedData : Nat
  Remaining : Nat
  CurrBlock : CBlock
  AllocatedBlocks : List CBlock
deriving DecidableEq, Repr

/-- What one call of `Allocate` produces: the returned `void*`, the value stored through the
`outOffset` reference (`none` when the call returns before line 169), and the object after. -/
structure AllocateResult where
  ret : Nat
  outOffset : Option Nat
  self : CPersistentMappedRingBuffer
deriving DecidableEq, Repr

namespace CPersistentMappedRingBuffer

/-- `CPersistentMappedRingBuffer::CPersistentMappedRingBuffer` (lines 124-142): the fields
after construction. The body sets `TotalSize` and `Remaining`; `mapped` is the pointer that
`vmaMapMemory` stored in `MappedData`; the queue starts empty. -/
def construct (size mapped : Nat) : CPersistentMappedRingBuffer :=
  { TotalSize := size
    MappedData := mapped
    Remaining := size
    CurrBlock := CBlock.initial
    AllocatedBlocks := [] }

/-- Lines 161-170 of `Allocate`: align, bounds check, reserve. -/
def AllocateReserve (self : CPersistentMappedRingBuffer) (size alignment : Nat) :
    AllocateResult :=
  let allocOffset := mulSz (subSz (addSz self.CurrBlock.End alignment) 1 / alignment) alignment
  let wastedOnAlighment := subSz allocOffset self.CurrBlock.End
  if addSz allocOffset size > self.TotalSize then
    { ret := nullptr, outOffset := none, self := self }
  else
    { ret := addSz self.MappedData allocOffset
      outOffset := some allocOffset
      self :=
        { self with
          Remaining := subSz (subSz self.Remaining wastedOnAlighment) size
          CurrBlock := { self.CurrBlock with End := addSz allocOffset size } } }

/-- `CPersistentMappedRingBuffer::Allocate` (lines 150-171). -/
def Allocate (self : CPersistentMappedRingBuffer) (size alignment : Nat) : AllocateResult :=
  if addSz (addSz self.CurrBlock.End size) alignment > self.TotalSize then
    let wastedSpace := subSz self.TotalSize self.CurrBlock.End
    if wastedSpace > self.Remaining then
      { ret := nullptr, outOffset := none, self := self }
    else
      AllocateReserve
        { self with
          CurrBlock := { self.CurrBlock with End := 0 }
          Remaining := subSz self.Remaining wastedSpace }
        size alignment
  else
    AllocateReserve self size alignment

/-- Arguments `(offset, size)` of the `vmaFlushAllocation` call in `MarkBlockEnd` (line 175). -/
def MarkBlockEndFlush (self : CPersistentMappedRingBuffer) : Nat × Nat :=
  (self.CurrBlock.Begin, subSz self.CurrBlock.End self.CurrBlock.Begin)

/-- `CPersistentMappedRingBuffer::MarkBlockEnd` (lines 173-183), the fields after the call. -/
def MarkBlockEnd (self : CPersistentMappedRingBuffer) : CPersistentMappedRingBuffer :=
  let pushed := self.AllocatedBlocks ++ [self.CurrBlock]
  let begin1 := self.CurrBlock.End
  let begin2 := if begin1 = self.TotalSize then 0 else begin1
  { self with AllocatedBlocks := pushed, CurrBlock := { Begin := begin2, End := begin2 } }

/-- `CPersistentMappedRingBuffer::FreeBlock` (lines 185-194). `front()` of an empty queue is
undefined behaviour, modelled as `none`. The `assert` of line 192 is `FreeBlockAssert`. -/
def FreeBlock (self : CPersistentMappedRingBuffer) : Option CPersistentMappedRingBuffer :=
  match self.AllocatedBlocks with
  | [] => none
  | firstBlock :: rest =>
    let blockSize0 := subSz firstBlock.End firstBlock.Begin
    let blockSize :=
      if firstBlock.End < firstBlock.Begin then
        addSz (subSz firstBlock.End firstBlock.Begin) self.TotalSize
      else blockSize0
    some { self with Remaining := addSz self.Remaining blockSize, AllocatedBlocks := rest }

/-- The condition of `assert(Remaining <= TotalSize)` (line 192), read on the object that
`FreeBlock` leaves (line 193 changes neither field). -/
def FreeBlockAssert (after : CPersistentMappedRingBuffer) : Bool :=
  decide (after.Remaining ≤ after.TotalSize)

end CPersistentMappedRingBuffer

/-! ## Ring allocator: call sequences -/

/-- One call on the ring allocator. -/
inductive RingOp where
  | Allocate (size alignment : Nat)
  | MarkBlockEnd
  | FreeBlock
deriving DecidableEq, Repr

/-- A byte range handed out by a successful `Allocate`: `[offset, offset + size)`. -/
structure Allocation where
  offset : Nat
  size : Nat
deriving DecidableEq, Repr

/-- Two handed-out ranges share a byte. -/
def Allocation.overlaps (a b : Allocation) : Bool :=
  decide (a.offset < b.offset + b.size) && decide (b.offset < a.offset + a.size)

/-- The allocator together with the bookkeeping of which returned ranges are still live:
`liveCurr` are the ranges returned since the last `MarkBlockEnd`, `liveCommitted` holds, for each
block in `AllocatedBlocks` (same order), the ranges returned while it was the current block. -/
structure Tracked where
  rb : CPersistentMappedRingBuffer
  liveCurr : List Allocation
  liveCommitted : List (List Allocation)
deriving DecidableEq, Repr

/-- All ranges that are live: returned, and their block not yet popped by `FreeBlock`. -/
def Tracked.live (t : Tracked) : List Allocation :=
  t.liveCommitted.flatten ++ t.liveCurr

/-- A freshly constructed allocator with nothing live. -/
def Tracked.construct (size mapped : Nat) : Tracked :=
  { rb := CPersistentMappedRingBuffer.construct size mapped, liveCurr := [], liveCommitted := [] }

/-- One call. `none` when `FreeBlock` is called with no committed block. A range becomes live
when `Allocate` returns a non-null pointer. -/
def Tracked.step (t : Tracked) : RingOp → Option Tracked
  | .Allocate size alignment =>
    let r := t.rb.Allocate size alignment
    match r.outOffset with
    | some off =>
      if r.ret = nullptr then some { t with rb := r.self }
      else some { t with rb := r.self, liveCurr := t.liveCurr ++ [{ offset := off, size := size }] }
    | none => some { t with rb := r.self }
  | .MarkBlockEnd =>
    some { rb := t.rb.MarkBlockEnd, liveCurr := [], liveCommitted := t.liveCommitted ++ [t.liveCurr] }
  | .FreeBlock =>
    match t.rb.FreeBlock with
    | none => none
    | some rb1 => some { t with rb := rb1, liveCommitted := t.liveCommitted.tail }

/-- Some two entries of the list (at different positions) overlap. -/
def hasOverlap : List Allocation → Bool
  | [] => false
  | a :: rest => rest.any (fun b => a.overlaps b) || hasOverlap rest

/-- A sequence of calls, left to right. -/
def Tracked.run (t : Tracked) : List RingOp → Option Tracked
  | [] => some t
  | op :: ops =>
    match t.step op with
    | none => none
    | some t1 => t1.run ops

/-! ## Buffer creation: usage classification and initial upload -/

/-- Modelled from the spec: `EBufferUsageFlags` and `Any` are declared in a header that is
absent. A usage-flag set is recorded by which of the ten enumerators named in `BufferVk.cpp` it
contains; `Any(usage, EBufferUsageFlags::X)` is the field `X`. -/
structure EBufferUsageFlags where
  Dynamic : Bool
  Index : Bool
  Vertex : Bool
  IndirectDraw : Bool
  Uniform : Bool
  Storage : Bool
  UniformTexel : Bool
  StorageTexel : Bool
  Upload : Bool
  Readback : Bool
deriving DecidableEq, Repr

/-- The empty usage-flag set. -/
def EBufferUsageFlags.none : EBufferUsageFlags :=
  { Dynamic := false, Index := false, Vertex := false, IndirectDraw := false, Uniform := false,
    Storage := false, UniformTexel := false, StorageTexel := false, Upload := false,
    Readback := false }

/-- `VmaMemoryUsage` (VMA header); `UNKNOWN` is the value of a zero-initialised
`VmaAllocationCreateInfo`. -/
inductive VmaMemoryUsage where
  | UNKNOWN
  | GPU_ONLY
  | CPU_ONLY
  | CPU_TO_GPU
  | GPU_TO_CPU
deriving DecidableEq, Repr

/-- The tier is one of the host-visible ones. -/
def VmaMemoryUsage.hostVisible : VmaMemoryUsage → Bool
  | .CPU_ONLY => true
  | .CPU_TO_GPU => true
  | .GPU_TO_CPU => true
  | _ => false

/-! `VkBufferUsageFlagBits` (Vulkan header). -/

def VK_BUFFER_USAGE_TRANSFER_SRC_BIT : Nat := 0x1
def VK_BUFFER_USAGE_TRANSFER_DST_BIT : Nat := 0x2
def VK_BUFFER_USAGE_UNIFORM_TEXEL_BUFFER_BIT : Nat := 0x4
def VK_BUFFER_USAGE_STORAGE_TEXEL_BUFFER_BIT : Nat := 0x8
def VK_BUFFER_USAGE_UNIFORM_BUFFER_BIT : Nat := 0x10
def VK_BUFFER_USAGE_STORAGE_BUFFER_BIT : Nat := 0x20
def VK_BUFFER_USAGE_INDEX_BUFFER_BIT : Nat := 0x40
def VK_BUFFER_USAGE_VERTEX_BUFFER_BIT : Nat := 0x80
def VK_BUFFER_USAGE_INDIRECT_BUFFER_BIT : Nat := 0x100

/-- `mask |= bit` when `c` holds. -/
def orIf (c : Bool) (mask bit : Nat) : Nat := if c then mask ||| bit else mask

/-- What lines 13-56 of the `CBufferVk` constructor compute from `usage`: the local `gpuOnly`,
`bufferInfo.usage` and `allocInfo.usage`. -/
structure CreateInfo where
  gpuOnly : Bool
  bufferUsage : Nat
  memoryUsage : VmaMemoryUsage
deriving DecidableEq, Repr

/-- Lines 18-56 of `CBufferVk::CBufferVk`. -/
def classifyUsage (usage : EBufferUsageFlags) : CreateInfo :=
  let gpuOnly0 := true
  let gpuOnly := if usage.Dynamic then false else gpuOnly0
  let u0 : Nat := 0
  let u1 := orIf usage.Index u0 VK_BUFFER_USAGE_INDEX_BUFFER_BIT
  let u2 := orIf usage.Vertex u1 VK_BUFFER_USAGE_VERTEX_BUFFER_BIT
  let u3 := orIf usage.IndirectDraw u2 VK_BUFFER_USAGE_INDIRECT_BUFFER_BIT
  let u4 := orIf usage.Uniform u3 VK_BUFFER_USAGE_UNIFORM_BUFFER_BIT
  let u5 := orIf usage.Storage u4 VK_BUFFER_USAGE_STORAGE_BUFFER_BIT
  let u6 := orIf usage.UniformTexel u5 VK_BUFFER_USAGE_UNIFORM_TEXEL_BUFFER_BIT
  let u7 := orIf usage.StorageTexel u6 VK_BUFFER_USAGE_STORAGE_TEXEL_BUFFER_BIT
  if gpuOnly then
    { gpuOnly := gpuOnly
      bufferUsage := u7 ||| VK_BUFFER_USAGE_TRANSFER_DST_BIT
      memoryUsage := .GPU_ONLY }
  else if usage.Dynamic then
    { gpuOnly := gpuOnly, bufferUsage := u7, memoryUsage := .CPU_TO_GPU }
  else if usage.Upload then
    { gpuOnly := gpuOnly
      bufferUsage := u7 ||| VK_BUFFER_USAGE_TRANSFER_SRC_BIT
      memoryUsage := .CPU_ONLY }
  else if usage.Readback then
    { gpuOnly := gpuOnly
      bufferUsage := u7 ||| VK_BUFFER_USAGE_TRANSFER_DST_BIT
      memoryUsage := .GPU_TO_CPU }
  else
    { gpuOnly := gpuOnly, bufferUsage := u7, memoryUsage := .UNKNOWN }

/-- The priority table of the residency classifier as the specification words it (rules 1-4):
the memory tier and the transfer bits added on top of the usage bits. -/
def specTier (usage : EBufferUsageFlags) : VmaMemoryUsage × Nat :=
  if usage.Dynamic then (.CPU_TO_GPU, 0)
  else if !usage.Upload && !usage.Readback then (.GPU_ONLY, VK_BUFFER_USAGE_TRANSFER_DST_BIT)
  else if usage.Upload then (.CPU_ONLY, VK_BUFFER_USAGE_TRANSFER_SRC_BIT)
  else (.GPU_TO_CPU, VK_BUFFER_USAGE_TRANSFER_DST_BIT)

/-- The backend bits of the seven usage flags that are present, as the specification lists
them. -/
def specUsageBits (usage : EBufferUsageFlags) : List Nat :=
  (if usage.Index then [VK_BUFFER_USAGE_INDEX_BUFFER_BIT] else []) ++
  (if usage.Vertex then [VK_BUFFER_USAGE_VERTEX_BUFFER_BIT] else []) ++
  (if usage.IndirectDraw then [VK_BUFFER_USAGE_INDIRECT_BUFFER_BIT] else []) ++
  (if usage.Uniform then [VK_BUFFER_USAGE_UNIFORM_BUFFER_BIT] else []) ++
  (if usage.Storage then [VK_BUFFER_USAGE_STORAGE_BUFFER_BIT] else []) ++
  (if usage.UniformTexel then [VK_BUFFER_USAGE_UNIFORM_TEXEL_BUFFER_BIT] else []) ++
  (if usage.StorageTexel then [VK_BUFFER_USAGE_STORAGE_TEXEL_BUFFER_BIT] else [])

/-- Bitwise OR of a list of masks. -/
def orAll (bits : List Nat) : Nat := bits.foldl (fun m b => m ||| b) 0

/-- The release action captured by a post-frame cleanup lambda: both lambdas of
`BufferVk.cpp` call `vmaDestroyBuffer` on the captured pair. -/
structure CleanupAction where
  buffer : Nat
  allocation : Nat
deriving DecidableEq, Repr

/-- Calls into the collaborators (VMA, Vulkan, the device and its copy queue), with the
arguments that matter. -/
inductive Call where
  | vmaCreateBuffer (size usage : Nat) (memoryUsage : VmaMemoryUsage) (buffer allocation : Nat)
  | vmaMapMemory (allocation : Nat)
  | memcpy (dst src n : Nat)
  | vmaUnmapMemory (allocation : Nat)
  | CreateCommandList
  | Enqueue
  | CreateCopyContext
  | GetCmdBuffer
  | vkCmdCopyBuffer (srcBuffer dstBuffer regionCount srcOffset dstOffset size : Nat)
  | FinishRecording
  | Commit
  | Flush
  | AddPostFrameCleanup (action : CleanupAction)
  | vmaDestroyBuffer (buffer allocation : Nat)
deriving DecidableEq, Repr

/-- Handles and pointers that the collaborators hand back during construction: the two
out-parameters of each `vmaCreateBuffer` and the pointer stored by `vmaMapMemory`. -/
structure Handles where
  Buffer : Nat
  Allocation : Nat
  stagingBuffer : Nat
  stagingAlloc : Nat
  mappedData : Nat
deriving DecidableEq, Repr

/-- The members of a constructed `CBufferVk` that `BufferVk.cpp` uses. -/
structure CBufferVk where
  Buffer : Nat
  Allocation : Nat
deriving DecidableEq, Repr

/-- `CBufferVk::CBufferVk` (lines 9-106): the constructed object and the collaborator calls in
program order. `initialData` is the pointer argument, `nullptr` when absent. -/
def CBufferVk.construct (h : Handles) (size : Nat) (usage : EBufferUsageFlags)
    (initialData : Nat) : CBufferVk × List Call :=
  let info := classifyUsage usage
  let create := [Call.vmaCreateBuffer size info.bufferUsage info.memoryUsage h.Buffer h.Allocation]
  let upload :=
    if initialData ≠ nullptr ∧ info.gpuOnly = true then
      [ Call.vmaCreateBuffer size VK_BUFFER_USAGE_TRANSFER_SRC_BIT .CPU_ONLY
          h.stagingBuffer h.stagingAlloc,
        Call.vmaMapMemory h.stagingAlloc,
        Call.memcpy h.mappedData initialData size,
        Call.vmaUnmapMemory h.stagingAlloc,
        Call.CreateCommandList,
        Call.Enqueue,
        Call.CreateCopyContext,
        Call.GetCmdBuffer,
        Call.vkCmdCopyBuffer h.stagingBuffer h.Buffer 1 0 0 size,
        Call.FinishRecording,
        Call.Commit,
        Call.Flush,
        Call.AddPostFrameCleanup { buffer := h.stagingBuffer, allocation := h.stagingAlloc } ]
    else if initialData ≠ nullptr then
      [ Call.vmaMapMemory h.Allocation,
        Call.memcpy h.mappedData initialData size,
        Call.vmaUnmapMemory h.Allocation ]
    else []
  ({ Buffer := h.Buffer, Allocation := h.Allocation }, create ++ upload)

/-- `CBufferVk::~CBufferVk` (lines 108-113). -/
def CBufferVk.destruct (self : CBufferVk) : List Call :=
  [Call.AddPostFrameCleanup { buffer := self.Buffer, allocation := self.Allocation }]

/-- The call is a direct `vmaDestroyBuffer`. -/
def Call.isDestroy : Call → Bool
  | .vmaDestroyBuffer _ _ => true
  | _ => false

/-- The call enqueues a post-frame cleanup action. -/
def Call.isCleanup : Call → Bool
  | .AddPostFrameCleanup _ => true
  | _ => false

/-- The call creates a buffer. -/
def Call.isCreate : Call → Bool
  | .vmaCreateBuffer _ _ _ _ _ => true
  | _ => false

/-- `CPersistentMappedRingBuffer::~CPersistentMappedRingBuffer` (lines 144-148): the
collaborator calls in program order. `Handle` and `Allocation` are the two handle members of
the object, which the allocator arithmetic never reads; they are passed as arguments. -/
def CPersistentMappedRingBuffer.destruct (Handle Allocation : Nat) : List Call :=
  [Call.vmaUnmapMemory Allocation, Call.vmaDestroyBuffer Handle Allocation]

/-- The call unmaps an allocation. -/
def Call.isUnmap : Call → Bool
  | .vmaUnmapMemory _ => true
  | _ => false

/-! ## Ring allocator: requests that do not wrap `size_t` -/

/-- Unsigned addition is exact below `2 ^ 64`. -/
theorem addSz_of_lt {a b : Nat} (h : a + b < SIZE_T_MOD) : addSz a b = a + b :=
  Nat.mod_eq_of_lt h

/-- Unsigned subtraction is exact when it does not go below zero. -/
theorem subSz_of_le {a b : Nat} (ha : a < SIZE_T_MOD) (hb : b ≤ a) : subSz a b = a - b := by
  unfold subSz SIZE_T_MOD at *
  omega

/-- Unsigned multiplication is exact below `2 ^ 64`. -/
theorem mulSz_of_lt {a b : Nat} (h : a * b < SIZE_T_MOD) : mulSz a b = a * b :=
  Nat.mod_eq_of_lt h

/-- Line 161 without wrap-around: the aligned offset is the least multiple of `alignment` that
is at least `e`. -/
theorem allocOffset_of_no_wrap (e a : Nat) (ha : 1 ≤ a) (hno : e + a < SIZE_T_MOD) :
    mulSz (subSz (addSz e a) 1 / a) a = (e + a - 1) / a * a
    ∧ e ≤ (e + a - 1) / a * a ∧ (e + a - 1) / a * a < e + a
    ∧ (e + a - 1) / a * a % a = 0 := by
  have h1 : addSz e a = e + a := addSz_of_lt hno
  have h2 : subSz (e + a) 1 = e + a - 1 := subSz_of_le hno (by omega)
  have h3 : (e + a - 1) / a * a ≤ e + a - 1 := Nat.div_mul_le_self _ _
  have h4 : e + a - 1 < (e + a - 1) / a * a + a := Nat.lt_div_mul_add (by omega)
  have h5 : mulSz ((e + a - 1) / a) a = (e + a - 1) / a * a := mulSz_of_lt (by omega)
  refine ⟨by rw [h1, h2, h5], by omega, by omega, Nat.mul_mod_left _ _⟩

/-- Lines 161-170 when nothing wraps around `2 ^ 64`: the call fails exactly when the aligned
offset plus the size exceeds `TotalSize`, and otherwise returns the aligned offset. -/
theorem AllocateReserve_of_no_wrap (self : CPersistentMappedRingBuffer) (size a : Nat)
    (ha : 1 ≤ a) (hno : self.CurrBlock.End + size + a < SIZE_T_MOD) :
    (self.TotalSize < (self.CurrBlock.End + a - 1) / a * a + size →
      (self.AllocateReserve size a).ret = nullptr)
    ∧ ((self.CurrBlock.End + a - 1) / a * a + size ≤ self.TotalSize →
      (self.AllocateReserve size a).ret = addSz self.MappedData ((self.CurrBlock.End + a - 1) / a * a)
      ∧ (self.AllocateReserve size a).outOffset = some ((self.CurrBlock.End + a - 1) / a * a)
      ∧ (self.AllocateReserve size a).self.CurrBlock.End
          = (self.CurrBlock.End + a - 1) / a * a + size
      ∧ (self.AllocateReserve size a).self.TotalSize = self.TotalSize) := by
  obtain ⟨h1, h2, h3, _⟩ := allocOffset_of_no_wrap self.CurrBlock.End a ha (by omega)
  have h5 : addSz ((self.CurrBlock.End + a - 1) / a * a) size
      = (self.CurrBlock.End + a - 1) / a * a + size := addSz_of_lt (by omega)
  constructor
  · intro hgt
    unfold CPersistentMappedRingBuffer.AllocateReserve
    simp only [h1, h5]
    rw [if_pos hgt]
  · intro hle
    unfold CPersistentMappedRingBuffer.AllocateReserve
    simp only [h1, h5]
    rw [if_neg (by omega)]
    exact ⟨rfl, rfl, rfl, rfl⟩

/-- For requests that do not wrap `size_t` (`End + size + alignment < 2^64`) a successful
`Allocate` stays in bounds: the offset is a multiple of the alignment, offset + size is at most
`TotalSize`, the pointer is `MappedData + offset` and the new `End` is offset + size. -/
theorem Allocate_in_bounds_of_no_wrap (self : CPersistentMappedRingBuffer) (size a : Nat)
    (ha : 1 ≤ a) (hno : self.CurrBlock.End + size + a < SIZE_T_MOD)
    (hok : (self.Allocate size a).ret ≠ nullptr) :
    ∃ off, (self.Allocate size a).outOffset = some off ∧ off % a = 0
      ∧ off + size ≤ self.TotalSize
      ∧ (self.Allocate size a).ret = addSz self.MappedData off
      ∧ (self.Allocate size a).self.CurrBlock.End = off + size
      ∧ (self.Allocate size a).self.CurrBlock.End ≤ (self.Allocate size a).self.TotalSize := by
  unfold CPersistentMappedRingBuffer.Allocate at hok ⊢
  split at hok
  · rename_i hw
    rw [if_pos hw]
    simp only at hok ⊢
    split at hok
    · exact absurd rfl hok
    · rename_i hr
      rw [if_neg hr]
      have hR := AllocateReserve_of_no_wrap
        { self with CurrBlock := { self.CurrBlock with End := 0 },
                    Remaining := subSz self.Remaining (subSz self.TotalSize self.CurrBlock.End) }
        size a ha (by simpa using (by omega : 0 + size + a < SIZE_T_MOD))
      by_cases hfit : ((0 : Nat) + a - 1) / a * a + size ≤ self.TotalSize
      · obtain ⟨r1, r2, r3, r4⟩ := hR.2 hfit
        refine ⟨_, r2, Nat.mul_mod_left _ _, hfit, r1, r3, ?_⟩
        rw [r3, r4]; exact hfit
      · exact absurd (hR.1 (by simpa using hfit)) hok
  · rename_i hw
    rw [if_neg hw]
    have hR := AllocateReserve_of_no_wrap self size a ha hno
    by_cases hfit : (self.CurrBlock.End + a - 1) / a * a + size ≤ self.TotalSize
    · obtain ⟨r1, r2, r3, r4⟩ := hR.2 hfit
      refine ⟨_, r2, Nat.mul_mod_left _ _, hfit, r1, r3, ?_⟩
      rw [r3, r4]; exact hfit
    · exact absurd (hR.1 (by omega)) hok

/-- For requests that do not wrap `size_t`, a size above `TotalSize` makes `Allocate` return
`nullptr`, in every state. -/
theorem Allocate_oversized_fails_of_no_wrap (self : CPersistentMappedRingBuffer) (size a : Nat)
    (ha : 1 ≤ a) (hno : self.CurrBlock.End + size + a < SIZE_T_MOD)
    (hbig : self.TotalSize < size) :
    (self.Allocate size a).ret = nullptr := by
  by_contra hok
  obtain ⟨off, _, _, hfit, _⟩ := Allocate_in_bounds_of_no_wrap self size a ha hno hok
  omega

/-- For requests that do not wrap `size_t`, a request with `End + size > TotalSize` that
succeeds is placed at offset 0 and fits the ring. -/
theorem Allocate_restarts_of_no_wrap (self : CPersistentMappedRingBuffer) (size a : Nat)
    (ha : 1 ≤ a) (hno : self.CurrBlock.End + size + a < SIZE_T_MOD)
    (hstraddle : self.TotalSize < self.CurrBlock.End + size)
    (hok : (self.Allocate size a).ret ≠ nullptr) :
    (self.Allocate size a).outOffset = some 0 ∧ size ≤ self.TotalSize := by
  have hw : addSz (addSz self.CurrBlock.End size) a > self.TotalSize := by
    rw [addSz_of_lt (by omega : self.CurrBlock.End + size < SIZE_T_MOD), addSz_of_lt hno]
    omega
  unfold CPersistentMappedRingBuffer.Allocate at hok ⊢
  rw [if_pos hw] at hok ⊢
  simp only at hok ⊢
  split at hok
  · exact absurd rfl hok
  · rename_i hr
    rw [if_neg hr]
    have hR := AllocateReserve_of_no_wrap
      { self with CurrBlock := { self.CurrBlock with End := 0 },
                  Remaining := subSz self.Remaining (subSz self.TotalSize self.CurrBlock.End) }
      size a ha (by simpa using (by omega : 0 + size + a < SIZE_T_MOD))
    have hz : ((0 : Nat) + a - 1) / a * a = 0 := by
      rw [Nat.zero_add, Nat.div_eq_of_lt (by omega), Nat.zero_mul]
    by_cases hfit : ((0 : Nat) + a - 1) / a * a + size ≤ self.TotalSize
    · obtain ⟨_, r2, _, _⟩ := hR.2 hfit
      refine ⟨?_, by omega⟩
      rw [r2]; simp only [hz]
    · exact absurd (hR.1 (by simpa using hfit)) hok

/-! ## Ring allocator: what the code does on concrete call sequences -/

/-- C1 (capacity invariant, defect): on a ring of 1024 bytes the calls `Allocate(10,1)`,
`MarkBlockEnd`, `Allocate(500,1)`, `Allocate(500,1)` leave `Remaining = 14`; a third
`Allocate(500,1)` still succeeds (offset 0), its subtraction wraps below zero and leaves
`Remaining = 2^64 - 500 > TotalSize`; the following `FreeBlock` (the FIFO holds one block) leaves
`Remaining = 2^64 - 490`, so the condition of its `assert(Remaining <= TotalSize)` is false. -/
theorem C1_remaining_underflows_and_assert_fails :
    ((Tracked.construct 1024 4096).run
        [.Allocate 10 1, .MarkBlockEnd, .Allocate 500 1, .Allocate 500 1]).map
      (fun t => (t.rb.Remaining, t.rb.AllocatedBlocks.length)) = some (14, 1)
    ∧ ((Tracked.construct 1024 4096).run
        [.Allocate 10 1, .MarkBlockEnd, .Allocate 500 1, .Allocate 500 1, .Allocate 500 1]).map
      (fun t => (t.rb.Remaining, t.rb.TotalSize, t.liveCurr.getLast?))
        = some (2 ^ 64 - 500, 1024, some { offset := 0, size := 500 })
    ∧ ((Tracked.construct 1024 4096).run
        [.Allocate 10 1, .MarkBlockEnd, .Allocate 500 1, .Allocate 500 1, .Allocate 500 1,
          .FreeBlock]).map
      (fun t => (t.rb.Remaining, t.rb.TotalSize, t.rb.FreeBlockAssert))
        = some (2 ^ 64 - 490, 1024, false) := by
  refine ⟨?_, ?_, ?_⟩ <;> rfl

/-- C2 (non-overlap, defect): on a ring of 1024 bytes three calls `Allocate(500,1)` with no
`MarkBlockEnd` or `FreeBlock` in between all succeed and return the offsets 0, 500 and 0; all
three ranges are live and the first and the third are the same bytes `[0, 500)`. -/
theorem C2_live_ranges_overlap :
    ((Tracked.construct 1024 4096).run
        [.Allocate 500 1, .Allocate 500 1, .Allocate 500 1]).map
      (fun t => (t.live, hasOverlap t.live))
      = some ([{ offset := 0, size := 500 }, { offset := 500, size := 500 },
                { offset := 0, size := 500 }], true) := by
  rfl

/-- C3 (example scenario, defect in its second half): on a ring of 1024 bytes mapped at 4096,
`Allocate(100,16)` returns offset 0 and leaves `Remaining = 924`; after `MarkBlockEnd` the call
`Allocate(1000,16)` does not fail: it returns the non-null pointer 4096 (offset 0, on top of the
committed block `[0,100)`) and leaves `Remaining = 2^64 - 1000`. -/
theorem C3_scenario_second_allocate_succeeds :
    ((CPersistentMappedRingBuffer.construct 1024 4096).Allocate 100 16).ret = 4096
    ∧ ((CPersistentMappedRingBuffer.construct 1024 4096).Allocate 100 16).outOffset = some 0
    ∧ ((CPersistentMappedRingBuffer.construct 1024 4096).Allocate 100 16).self.Remaining = 924
    ∧ (((CPersistentMappedRingBuffer.construct 1024 4096).Allocate 100 16).self.MarkBlockEnd.Allocate
          1000 16).ret = 4096
    ∧ (((CPersistentMappedRingBuffer.construct 1024 4096).Allocate 100 16).self.MarkBlockEnd.Allocate
          1000 16).ret ≠ nullptr
    ∧ (((CPersistentMappedRingBuffer.construct 1024 4096).Allocate 100 16).self.MarkBlockEnd.Allocate
          1000 16).outOffset = some 0
    ∧ (((CPersistentMappedRingBuffer.construct 1024 4096).Allocate 100 16).self.MarkBlockEnd.Allocate
          1000 16).self.Remaining = 2 ^ 64 - 1000
    ∧ (((CPersistentMappedRingBuffer.construct 1024 4096).Allocate 100 16).self.MarkBlockEnd.Allocate
          1000 16).self.AllocatedBlocks = [{ Begin := 0, End := 100 }] := by
  refine ⟨?_, ?_, ?_, ?_, ?_, ?_, ?_, ?_⟩ <;> decide

/-- C4 (byte accounting, defect): on a ring of 1024 bytes the calls `Allocate(100,1)`,
`MarkBlockEnd`, `FreeBlock`, `Allocate(900,1)`, `Allocate(100,1)`, `MarkBlockEnd`, `FreeBlock`
all succeed without any underflow or overlap (offsets 0, 100, 0); the second block is
`[100, 100)` after one wrap, `FreeBlock` gives back 0 bytes for it, and the allocator ends with
an empty FIFO, an empty current block and `Remaining = 0`, not 1024. -/
theorem C4_remaining_not_restored :
    ((Tracked.construct 1024 4096).run
        [.Allocate 100 1, .MarkBlockEnd, .FreeBlock, .Allocate 900 1, .Allocate 100 1]).map
      (fun t => (t.rb.Remaining, t.rb.CurrBlock, t.live))
      = some (0, { Begin := 100, End := 100 },
          [{ offset := 100, size := 900 }, { offset := 0, size := 100 }])
    ∧ ((Tracked.construct 1024 4096).run
        [.Allocate 100 1, .MarkBlockEnd, .FreeBlock, .Allocate 900 1, .Allocate 100 1,
          .MarkBlockEnd, .FreeBlock]).map (fun t => t.rb)
      = some { TotalSize := 1024, MappedData := 4096, Remaining := 0,
               CurrBlock := { Begin := 100, End := 100 }, AllocatedBlocks := [] } := by
  refine ⟨?_, ?_⟩ <;> rfl

/-- C5 (in bounds, defect): on a ring of 1024 bytes mapped at 4096 with `CurrBlock.End = 16`
(reached by `Allocate(16,1)`), `Allocate(2^64 - 16, 16)` succeeds: both guards wrap around
`2^64`, the call returns the pointer 4096 + 16 and offset 16, although offset + size is `2^64`,
far beyond `TotalSize`, and the new `CurrBlock.End` is 0, not offset + size. -/
theorem C5_huge_request_leaves_the_ring :
    ((CPersistentMappedRingBuffer.construct 1024 4096).Allocate 16 1).self.CurrBlock.End = 16
    ∧ (((CPersistentMappedRingBuffer.construct 1024 4096).Allocate 16 1).self.Allocate
          (2 ^ 64 - 16) 16).ret = 4096 + 16
    ∧ (((CPersistentMappedRingBuffer.construct 1024 4096).Allocate 16 1).self.Allocate
          (2 ^ 64 - 16) 16).outOffset = some 16
    ∧ ¬ (16 + (2 ^ 64 - 16) ≤
          (((CPersistentMappedRingBuffer.construct 1024 4096).Allocate 16 1).self.Allocate
            (2 ^ 64 - 16) 16).self.TotalSize)
    ∧ (((CPersistentMappedRingBuffer.construct 1024 4096).Allocate 16 1).self.Allocate
          (2 ^ 64 - 16) 16).self.CurrBlock.End = 0 := by
  refine ⟨?_, ?_, ?_, ?_, ?_⟩ <;> decide

/-- C6 (oversized requests, defect): on a ring of 1024 bytes mapped at 4096, after
`Allocate(64,1)` the request `Allocate(2^64 - 64, 64)`, whose size is a valid `size_t` larger
than `TotalSize`, does not return `nullptr`: it returns the pointer 4096 + 64 and offset 64. -/
theorem C6_oversized_request_succeeds :
    1024 < 2 ^ 64 - 64 ∧ 2 ^ 64 - 64 < SIZE_T_MOD
    ∧ (((CPersistentMappedRingBuffer.construct 1024 4096).Allocate 64 1).self.Allocate
          (2 ^ 64 - 64) 64).ret = 4096 + 64
    ∧ (((CPersistentMappedRingBuffer.construct 1024 4096).Allocate 64 1).self.Allocate
          (2 ^ 64 - 64) 64).ret ≠ nullptr
    ∧ (((CPersistentMappedRingBuffer.construct 1024 4096).Allocate 64 1).self.Allocate
          (2 ^ 64 - 64) 64).outOffset = some 64 := by
  refine ⟨?_, ?_, ?_, ?_, ?_⟩ <;> decide

/-- C7 (no split at the wrap boundary, defect): on a ring of 1024 bytes mapped at 4096 with
`CurrBlock.End = 1` (reached by `Allocate(1,1)`), the request `Allocate(2^64 - 8, 8)` has
`End + size = 2^64 - 7 > TotalSize` and succeeds, yet the returned offset is 8, not 0, and
`[offset, offset + size)` runs past the end of the ring. -/
theorem C7_straddling_request_not_restarted :
    ((CPersistentMappedRingBuffer.construct 1024 4096).Allocate 1 1).self.CurrBlock.End = 1
    ∧ 1024 < 1 + (2 ^ 64 - 8) ∧ 1 + (2 ^ 64 - 8) < SIZE_T_MOD
    ∧ (((CPersistentMappedRingBuffer.construct 1024 4096).Allocate 1 1).self.Allocate
          (2 ^ 64 - 8) 8).ret = 4096 + 8
    ∧ (((CPersistentMappedRingBuffer.construct 1024 4096).Allocate 1 1).self.Allocate
          (2 ^ 64 - 8) 8).outOffset = some 8
    ∧ 1024 < 8 + (2 ^ 64 - 8) := by
  refine ⟨?_, ?_, ?_, ?_, ?_, ?_⟩ <;> decide

/-! ## Buffer creation -/

/-- C8 (priority table, defect): for the usage set that contains only `Upload` the constructor
keeps `gpuOnly = true`, so it picks `GPU_ONLY` and adds `TRANSFER_DST`, where rule 3 of the table
asks for `CPU_ONLY` with `TRANSFER_SRC`; likewise the set with only `Readback` gets `GPU_ONLY`
where rule 4 asks for `GPU_TO_CPU`. The branches of lines 47-56 are never taken. -/
theorem C8_upload_classified_device_only :
    classifyUsage { EBufferUsageFlags.none with Upload := true }
      = { gpuOnly := true, bufferUsage := VK_BUFFER_USAGE_TRANSFER_DST_BIT,
          memoryUsage := .GPU_ONLY }
    ∧ specTier { EBufferUsageFlags.none with Upload := true }
      = (.CPU_ONLY, VK_BUFFER_USAGE_TRANSFER_SRC_BIT)
    ∧ classifyUsage { EBufferUsageFlags.none with Readback := true }
      = { gpuOnly := true, bufferUsage := VK_BUFFER_USAGE_TRANSFER_DST_BIT,
          memoryUsage := .GPU_ONLY }
    ∧ specTier { EBufferUsageFlags.none with Readback := true }
      = (.GPU_TO_CPU, VK_BUFFER_USAGE_TRANSFER_DST_BIT) := by
  refine ⟨?_, ?_, ?_, ?_⟩ <;> decide

/-- C9 (dynamic buffers): for every usage set that contains `Dynamic` the constructor picks
`CPU_TO_GPU`, and `bufferInfo.usage` is exactly the OR of the bits of the flags present among
Index, Vertex, IndirectDraw, Uniform, Storage, UniformTexel, StorageTexel; neither
`TRANSFER_SRC` nor `TRANSFER_DST` is in it. -/
theorem C9_dynamic_no_transfer_bits (usage : EBufferUsageFlags) (hd : usage.Dynamic = true) :
    (classifyUsage usage).memoryUsage = .CPU_TO_GPU
    ∧ (classifyUsage usage).bufferUsage = orAll (specUsageBits usage)
    ∧ (classifyUsage usage).bufferUsage &&& VK_BUFFER_USAGE_TRANSFER_SRC_BIT = 0
    ∧ (classifyUsage usage).bufferUsage &&& VK_BUFFER_USAGE_TRANSFER_DST_BIT = 0 := by
  obtain ⟨d, i, v, n, u, s, ut, st, up, rb⟩ := usage
  simp only at hd
  subst hd
  cases i <;> cases v <;> cases n <;> cases u <;> cases s <;> cases ut <;> cases st <;>
    cases up <;> cases rb <;> decide

/-- C9 at the example of the specification: `{Uniform, Dynamic}` gets `CPU_TO_GPU` and exactly
the uniform-buffer bit. -/
theorem C9_dynamic_no_transfer_bits_witness :
    ({ EBufferUsageFlags.none with Uniform := true, Dynamic := true } : EBufferUsageFlags).Dynamic
      = true
    ∧ (classifyUsage { EBufferUsageFlags.none with Uniform := true, Dynamic := true }).memoryUsage
      = .CPU_TO_GPU
    ∧ (classifyUsage { EBufferUsageFlags.none with Uniform := true, Dynamic := true }).bufferUsage
      = VK_BUFFER_USAGE_UNIFORM_BUFFER_BIT :=
  ⟨rfl,
   (C9_dynamic_no_transfer_bits
      { EBufferUsageFlags.none with Uniform := true, Dynamic := true } rfl).1,
   ((C9_dynamic_no_transfer_bits
      { EBufferUsageFlags.none with Uniform := true, Dynamic := true } rfl).2.1).trans rfl⟩

/-- C10 (staged upload): for every construction with non-null initial data, when the tier
is `GPU_ONLY` the collaborator calls are, in this order: create the buffer, create a staging
buffer of `size` bytes (`TRANSFER_SRC`, `CPU_ONLY`), map it, copy `size` bytes, unmap it, open a
command list and copy context, record one buffer copy of `size` bytes from staging offset 0 to
destination offset 0, finish recording, commit, flush the copy queue, and last enqueue one
post-frame cleanup action holding the staging (buffer, allocation) pair; `vmaDestroyBuffer` is
never called by the constructor. When the tier is host-visible the calls are: create the buffer,
map it, copy `size` bytes, unmap it; one buffer is created and no cleanup action is enqueued. -/
theorem C10_staging_release_deferred (h : Handles) (size : Nat) (usage : EBufferUsageFlags)
    (initialData : Nat) (hdata : initialData ≠ nullptr) :
    ((classifyUsage usage).memoryUsage = .GPU_ONLY →
      (CBufferVk.construct h size usage initialData).2 =
        [ Call.vmaCreateBuffer size (classifyUsage usage).bufferUsage .GPU_ONLY
            h.Buffer h.Allocation,
          Call.vmaCreateBuffer size VK_BUFFER_USAGE_TRANSFER_SRC_BIT .CPU_ONLY
            h.stagingBuffer h.stagingAlloc,
          Call.vmaMapMemory h.stagingAlloc,
          Call.memcpy h.mappedData initialData size,
          Call.vmaUnmapMemory h.stagingAlloc,
          Call.CreateCommandList,
          Call.Enqueue,
          Call.CreateCopyContext,
          Call.GetCmdBuffer,
          Call.vkCmdCopyBuffer h.stagingBuffer h.Buffer 1 0 0 size,
          Call.FinishRecording,
          Call.Commit,
          Call.Flush,
          Call.AddPostFrameCleanup { buffer := h.stagingBuffer, allocation := h.stagingAlloc } ]
      ∧ ((CBufferVk.construct h size usage initialData).2.filter Call.isCleanup).length = 1
      ∧ (CBufferVk.construct h size usage initialData).2.any Call.isDestroy = false)
    ∧ ((classifyUsage usage).memoryUsage.hostVisible = true →
      (CBufferVk.construct h size usage initialData).2 =
        [ Call.vmaCreateBuffer size (classifyUsage usage).bufferUsage
            (classifyUsage usage).memoryUsage h.Buffer h.Allocation,
          Call.vmaMapMemory h.Allocation,
          Call.memcpy h.mappedData initialData size,
          Call.vmaUnmapMemory h.Allocation ]
      ∧ ((CBufferVk.construct h size usage initialData).2.filter Call.isCreate).length = 1
      ∧ (CBufferVk.construct h size usage initialData).2.any Call.isCleanup = false
      ∧ (CBufferVk.construct h size usage initialData).2.any Call.isDestroy = false) := by
  obtain ⟨d, i, v, n, u, s, ut, st, up, rb⟩ := usage
  cases d
  · refine ⟨fun _ => ?_, fun hv => ?_⟩
    · simp [CBufferVk.construct, classifyUsage, hdata, Call.isCleanup, Call.isDestroy]
    · simp [classifyUsage, VmaMemoryUsage.hostVisible] at hv
  · refine ⟨fun hg => ?_, fun _ => ?_⟩
    · simp [classifyUsage] at hg
    · simp [CBufferVk.construct, classifyUsage, hdata, Call.isCleanup, Call.isDestroy,
        Call.isCreate]

/-- C10 at concrete constructions: a vertex buffer (tier `GPU_ONLY`) with initial data at
address 777 ends its calls with flush and then the deferred release of the staging pair; a
dynamic uniform buffer (tier `CPU_TO_GPU`) makes four calls and none creates a staging buffer. -/
theorem C10_staging_release_deferred_witness :
    (777 : Nat) ≠ nullptr
    ∧ ((CBufferVk.construct ⟨1, 2, 3, 4, 5⟩ 64 { EBufferUsageFlags.none with Vertex := true }
          777).2.drop 12
        = [Call.Flush, Call.AddPostFrameCleanup { buffer := 3, allocation := 4 }])
    ∧ ((CBufferVk.construct ⟨1, 2, 3, 4, 5⟩ 64
          { EBufferUsageFlags.none with Uniform := true, Dynamic := true } 777).2.length = 4) := by
  have hv := (C10_staging_release_deferred ⟨1, 2, 3, 4, 5⟩ 64
    { EBufferUsageFlags.none with Vertex := true } 777 (by decide)).1 (by decide)
  have hu := (C10_staging_release_deferred ⟨1, 2, 3, 4, 5⟩ 64
    { EBufferUsageFlags.none with Uniform := true, Dynamic := true } 777 (by decide)).2
      (by decide)
  refine ⟨by decide, ?_, ?_⟩
  · rw [hv.1]; rfl
  · rw [hu.1]; rfl

/-! ## Teardown and failed allocations -/

/-- C11 (ring teardown, defect): for every handle pair the destructor of the ring allocator
unmaps the allocation once and then calls `vmaDestroyBuffer` on the pair directly; it enqueues
no post-frame cleanup action, whereas the destructor of `CBufferVk` on the same pair makes the
single call `AddPostFrameCleanup` holding the pair and never calls `vmaDestroyBuffer`. -/
theorem C11_ring_teardown_destroys_directly (Handle Allocation : Nat) :
    CPersistentMappedRingBuffer.destruct Handle Allocation
      = [Call.vmaUnmapMemory Allocation, Call.vmaDestroyBuffer Handle Allocation]
    ∧ ((CPersistentMappedRingBuffer.destruct Handle Allocation).filter Call.isUnmap).length = 1
    ∧ (CPersistentMappedRingBuffer.destruct Handle Allocation).any Call.isCleanup = false
    ∧ (CPersistentMappedRingBuffer.destruct Handle Allocation).any Call.isDestroy = true
    ∧ CBufferVk.destruct { Buffer := Handle, Allocation := Allocation }
      = [Call.AddPostFrameCleanup { buffer := Handle, allocation := Allocation }]
    ∧ (CBufferVk.destruct { Buffer := Handle, Allocation := Allocation }).any Call.isDestroy
      = false :=
  ⟨rfl, rfl, rfl, rfl, rfl, rfl⟩

/-- Every call of `Allocate` (alignment at least 1) that returns before line 169 (both
`return nullptr` paths) leaves `TotalSize`, `MappedData`, `CurrBlock.Begin` and the FIFO of
committed blocks as they were. -/
theorem Allocate_failed_keeps_begin_and_queue (self : CPersistentMappedRingBuffer)
    (size a : Nat) (ha : 1 ≤ a) (hfail : (self.Allocate size a).outOffset = none) :
    (self.Allocate size a).ret = nullptr
    ∧ (self.Allocate size a).self.TotalSize = self.TotalSize
    ∧ (self.Allocate size a).self.MappedData = self.MappedData
    ∧ (self.Allocate size a).self.CurrBlock.Begin = self.CurrBlock.Begin
    ∧ (self.Allocate size a).self.AllocatedBlocks = self.AllocatedBlocks := by
  have _ := ha
  unfold CPersistentMappedRingBuffer.Allocate at hfail ⊢
  unfold CPersistentMappedRingBuffer.AllocateReserve at hfail ⊢
  simp only at hfail ⊢
  split_ifs at hfail ⊢ <;> exact ⟨rfl, rfl, rfl, rfl, rfl⟩

/-- Lines 161-170 when nothing wraps around `2 ^ 64`: a call that writes `outOffset` returns
`MappedData + offset` and the range fits the ring. -/
theorem AllocateReserve_written_of_no_wrap (self : CPersistentMappedRingBuffer) (size a : Nat)
    (ha : 1 ≤ a) (hno : self.CurrBlock.End + size + a < SIZE_T_MOD) (off : Nat)
    (hoff : (self.AllocateReserve size a).outOffset = some off) :
    (self.AllocateReserve size a).ret = addSz self.MappedData off
    ∧ off + size ≤ self.TotalSize := by
  obtain ⟨h1, h2, h3, _⟩ := allocOffset_of_no_wrap self.CurrBlock.End a ha (by omega)
  have h5 : addSz ((self.CurrBlock.End + a - 1) / a * a) size
      = (self.CurrBlock.End + a - 1) / a * a + size := addSz_of_lt (by omega)
  unfold CPersistentMappedRingBuffer.AllocateReserve at hoff ⊢
  simp only [h1, h5] at hoff ⊢
  by_cases hgt : (self.CurrBlock.End + a - 1) / a * a + size > self.TotalSize
  · rw [if_pos hgt] at hoff
    simp at hoff
  · rw [if_neg hgt] at hoff ⊢
    simp only [Option.some.injEq] at hoff
    subst hoff
    exact ⟨rfl, by omega⟩

/-- With a non-null mapping whose `TotalSize` bytes lie below `2 ^ 64`, and a request that does
not wrap `size_t`, `Allocate` returns `nullptr` exactly when it leaves through one of its two
`return nullptr` statements, that is without writing `outOffset`. -/
theorem Allocate_nullptr_iff_of_no_wrap (self : CPersistentMappedRingBuffer) (size a : Nat)
    (ha : 1 ≤ a) (hno : self.CurrBlock.End + size + a < SIZE_T_MOD)
    (hmap : 0 < self.MappedData) (hend : self.MappedData + self.TotalSize < SIZE_T_MOD) :
    (self.Allocate size a).ret = nullptr ↔ (self.Allocate size a).outOffset = none := by
  constructor
  · intro hnull
    by_contra hsome
    obtain ⟨off, hoff⟩ := Option.ne_none_iff_exists'.mp hsome
    have hkeep : (self.Allocate size a).ret = addSz self.MappedData off
        ∧ off + size ≤ self.TotalSize := by
      unfold CPersistentMappedRingBuffer.Allocate at hoff ⊢
      simp only at hoff ⊢
      by_cases hw : addSz (addSz self.CurrBlock.End size) a > self.TotalSize
      · rw [if_pos hw] at hoff ⊢
        by_cases hr : subSz self.TotalSize self.CurrBlock.End > self.Remaining
        · rw [if_pos hr] at hoff
          simp at hoff
        · rw [if_neg hr] at hoff ⊢
          exact AllocateReserve_written_of_no_wrap
            { self with CurrBlock := { self.CurrBlock with End := 0 },
                        Remaining :=
                          subSz self.Remaining (subSz self.TotalSize self.CurrBlock.End) }
            size a ha (by simpa using (by omega : 0 + size + a < SIZE_T_MOD)) off hoff
      · rw [if_neg hw] at hoff ⊢
        exact AllocateReserve_written_of_no_wrap self size a ha hno off hoff
    rw [hkeep.1, addSz_of_lt (by omega)] at hnull
    unfold nullptr at hnull
    omega
  · intro hnone
    exact (Allocate_failed_keeps_begin_and_queue self size a ha hnone).1

/-- C12 (failed `Allocate`), the claim refuted as stated: on a fresh ring of 1024 bytes
`Allocate(2000,1)` returns `nullptr` without writing `outOffset`, yet leaves `Remaining = 0`
instead of 1024 (the wrap of lines 154-159 was committed before the bounds check of line 163
failed). On the ring reached by `Allocate(900,1)` (`End = 900`, `Remaining = 124`) the same
failed request leaves `End = 0` and `Remaining = 0`. -/
theorem C12_failed_allocate_changes_state :
    (CPersistentMappedRingBuffer.construct 1024 4096).Allocate 2000 1
      = { ret := nullptr, outOffset := none,
          self := { TotalSize := 1024, MappedData := 4096, Remaining := 0,
                    CurrBlock := { Begin := 0, End := 0 }, AllocatedBlocks := [] } }
    ∧ (CPersistentMappedRingBuffer.construct 1024 4096).Remaining = 1024
    ∧ ((CPersistentMappedRingBuffer.construct 1024 4096).Allocate 900 1).self
      = { TotalSize := 1024, MappedData := 4096, Remaining := 124,
          CurrBlock := { Begin := 0, End := 900 }, AllocatedBlocks := [] }
    ∧ ((CPersistentMappedRingBuffer.construct 1024 4096).Allocate 900 1).self.Allocate 2000 1
      = { ret := nullptr, outOffset := none,
          self := { TotalSize := 1024, MappedData := 4096, Remaining := 0,
                    CurrBlock := { Begin := 0, End := 0 }, AllocatedBlocks := [] } }
    ∧ ¬ (((CPersistentMappedRingBuffer.construct 1024 4096).Allocate 2000 1).ret = nullptr →
          ((CPersistentMappedRingBuffer.construct 1024 4096).Allocate 2000 1).self.Remaining
            = (CPersistentMappedRingBuffer.construct 1024 4096).Remaining) := by
  refine ⟨?_, ?_, ?_, ?_, ?_⟩ <;> decide

/-- C12 (failed `Allocate`), as the code has it: a call with alignment at least 1 that leaves
through a `return nullptr` statement (so `outOffset` is not written) returns `nullptr` and leaves
`TotalSize`, `MappedData`, `CurrBlock.Begin` and the FIFO of committed blocks unchanged. When
the wrap test of line 152 is false, or the wasted tail exceeds `Remaining` (line 155), the whole
object is unchanged. When the wrap of lines 158-159 was committed and the bounds check of line
163 then failed, `CurrBlock.End` is 0 and `Remaining` has lost the wasted tail
`TotalSize - End`. -/
theorem C12_failed_allocate_effect (self : CPersistentMappedRingBuffer) (size a : Nat)
    (ha : 1 ≤ a) (hfail : (self.Allocate size a).outOffset = none) :
    (self.Allocate size a).ret = nullptr
    ∧ (self.Allocate size a).self.TotalSize = self.TotalSize
    ∧ (self.Allocate size a).self.MappedData = self.MappedData
    ∧ (self.Allocate size a).self.CurrBlock.Begin = self.CurrBlock.Begin
    ∧ (self.Allocate size a).self.AllocatedBlocks = self.AllocatedBlocks
    ∧ ((¬ addSz (addSz self.CurrBlock.End size) a > self.TotalSize
          ∨ subSz self.TotalSize self.CurrBlock.End > self.Remaining) →
        (self.Allocate size a).self = self)
    ∧ ((addSz (addSz self.CurrBlock.End size) a > self.TotalSize
          ∧ ¬ subSz self.TotalSize self.CurrBlock.End > self.Remaining) →
        (self.Allocate size a).self.CurrBlock.End = 0
        ∧ (self.Allocate size a).self.Remaining
            = subSz self.Remaining (subSz self.TotalSize self.CurrBlock.End)) := by
  obtain ⟨k1, k2, k3, k4, k5⟩ := Allocate_failed_keeps_begin_and_queue self size a ha hfail
  refine ⟨k1, k2, k3, k4, k5, ?_, ?_⟩
  · intro hcase
    unfold CPersistentMappedRingBuffer.Allocate at hfail ⊢
    unfold CPersistentMappedRingBuffer.AllocateReserve at hfail ⊢
    simp only at hfail ⊢
    split_ifs at hfail ⊢ with hw hr hb hb
    · rfl
    · exact absurd hcase (by simp [hw, hr])
    · rfl
  · intro hcase
    unfold CPersistentMappedRingBuffer.Allocate at hfail ⊢
    unfold CPersistentMappedRingBuffer.AllocateReserve at hfail ⊢
    simp only at hfail ⊢
    split_ifs at hfail ⊢ with hw hr hb hb
    · exact absurd hr hcase.2
    · exact ⟨rfl, rfl⟩
    · exact absurd hcase.1 hw

/-- C12 at two concrete failed requests on a ring of 1024 bytes. After `Allocate(100,1)` and
`MarkBlockEnd` (current block `[100,100)`, `Remaining = 924`) the request `Allocate(2000,1)`
commits the wrap and then fails: `End = 0`, `Remaining = 0`, `Begin` and the FIFO as before.
In the state with current block `[900,200)` and `Remaining = 400` the request `Allocate(900,1)`
fails at line 156 and changes nothing. -/
theorem C12_failed_allocate_effect_witness :
    ((((CPersistentMappedRingBuffer.construct 1024 4096).Allocate 100 1).self.MarkBlockEnd.Allocate
        2000 1).ret = nullptr
      ∧ (((CPersistentMappedRingBuffer.construct 1024 4096).Allocate 100 1).self.MarkBlockEnd.Allocate
        2000 1).self
        = { TotalSize := 1024, MappedData := 4096, Remaining := 0,
            CurrBlock := { Begin := 100, End := 0 },
            AllocatedBlocks := [{ Begin := 0, End := 100 }] })
    ∧ (({ TotalSize := 1024, MappedData := 4096, Remaining := 400,
          CurrBlock := { Begin := 900, End := 200 },
          AllocatedBlocks := [{ Begin := 600, End := 900 }] }
          : CPersistentMappedRingBuffer).Allocate 900 1).self
        = { TotalSize := 1024, MappedData := 4096, Remaining := 400,
            CurrBlock := { Begin := 900, End := 200 },
            AllocatedBlocks := [{ Begin := 600, End := 900 }] } := by
  have h1 := C12_failed_allocate_effect
    ((CPersistentMappedRingBuffer.construct 1024 4096).Allocate 100 1).self.MarkBlockEnd
    2000 1 (by decide) (by decide)
  have h2 := C12_failed_allocate_effect
    { TotalSize := 1024, MappedData := 4096, Remaining := 400,
      CurrBlock := { Begin := 900, End := 200 },
      AllocatedBlocks := [{ Begin := 600, End := 900 }] }
    900 1 (by decide) (by decide)
  refine ⟨⟨h1.1, ?_⟩, h2.2.2.2.2.2.1 (Or.inr (by decide))⟩
  decide

end RHI
